import Mathlib

/-!
Shallow embedding of the delaware-status-proxy status-resolution engine.

The repository is a small Node.js proxy that answers "is the school district
open, closed, or delayed?" by scraping several sources, classifying each
fetched document into a verdict, combining the verdicts with a resolution
strategy, and caching the result for 60 seconds.  The source files contain
several iterations of the same program:
- src/server.js: a 9-source sequential failover, a 3-source sequential
  failover, a parallel severity-override system, and a 10-source variant;
- src/unnamed/part_000: a single-source windowed scraper and a parallel
  severity-override system with a 60 s cache;
- src/unnamed/part_001: a parallel majority-vote system with a 60 s cache.

JS strings are modelled as Lean `String` (lists of characters); the JS
`toUpperCase` used by the code only ever matters on ASCII text, so it is
modelled by ASCII case folding.  `text.includes(sub)`, `text.indexOf(sub)`
and `text.substring(a, b)` are modelled by executable functions below.
-/

namespace DelawareProxy

/-- ASCII upper-casing of one character, the effect of JS `toUpperCase` on
the ASCII texts handled by this program. -/
def upChar (c : Char) : Char :=
  if 'a' ≤ c ∧ c ≤ 'z' then Char.ofNat (c.toNat - 32) else c

/-- Model of JS `s.toUpperCase()` (ASCII case folding). -/
def jsToUpper (s : String) : String :=
  ⟨s.data.map upChar⟩

/-- Does the pattern (second argument) occur at the head of the text
(first argument)? -/
def headMatch : List Char → List Char → Bool
  | _, [] => true
  | [], _ :: _ => false
  | c :: cs, d :: ds => c == d && headMatch cs ds

/-- Does the pattern `p` occur as a contiguous substring of the text? -/
def occursL (p : List Char) : List Char → Bool
  | [] => headMatch [] p
  | c :: t => headMatch (c :: t) p || occursL p t

/-- Model of JS `s.includes(pat)`. -/
def strIncludes (s pat : String) : Bool :=
  occursL pat.data s.data

/-- Index of the first occurrence of `p` in the text, if any. -/
def indexOfL (p : List Char) : List Char → Nat → Option Nat
  | [], i => if headMatch [] p then some i else none
  | c :: t, i => if headMatch (c :: t) p then some i else indexOfL p t (i + 1)

/-- Model of JS `s.indexOf(pat)`: `some i` instead of `i`, `none` instead
of `-1`. -/
def indexOfSub (s pat : String) : Option Nat :=
  indexOfL pat.data s.data 0

/-- Model of JS `s.substring(a, b)` for `a ≤ b` (clamped to the string's
length, as in JS). -/
def substringRange (s : String) (a b : Nat) : String :=
  ⟨(s.data.drop a).take (b - a)⟩

/-- Per-source verdict, JS strings 'OPEN' | 'CLOSED' | 'DELAYED' | 'ERROR'. -/
inductive Verdict where
  | OPEN
  | CLOSED
  | DELAYED
  | ERROR
deriving DecidableEq

/-- The repeated JS guard `status === 'OPEN' || status === 'CLOSED' ||
status === 'DELAYED'`. -/
def isDecisive (v : Verdict) : Bool :=
  v == Verdict.OPEN || v == Verdict.CLOSED || v == Verdict.DELAYED

/-- The JS string a verdict stands for. -/
def verdictStr : Verdict → String
  | Verdict.OPEN => "OPEN"
  | Verdict.CLOSED => "CLOSED"
  | Verdict.DELAYED => "DELAYED"
  | Verdict.ERROR => "ERROR"

/-- Extractor of src/unnamed/part_001 lines 20-40 (`checkTextForStatus`):
case-fold the text, and if the district name or one of the two hard-coded
aliases occurs, look for closure keywords, then delay keywords; otherwise
(or if no keyword occurs) return OPEN. -/
def checkTextForStatus (text districtName : String) : Verdict :=
  let cleanText := jsToUpper text
  let cleanDistrict := jsToUpper districtName
  if strIncludes cleanText cleanDistrict
      || strIncludes cleanText "DELAWARE CITY SCHOOLS"
      || strIncludes cleanText "DELAWARE CITY SCHOOL DISTRICT" then
    if strIncludes cleanText "CLOSED" || strIncludes cleanText "CLOSURE" then
      Verdict.CLOSED
    else if strIncludes cleanText "DELAY" || strIncludes cleanText "DELAYED"
        || strIncludes cleanText "TWO-HOUR" || strIncludes cleanText "2-HOUR" then
      Verdict.DELAYED
    else
      Verdict.OPEN
  else
    Verdict.OPEN

/-- The alias test of `checkTextForStatus`: the district name or one of the
two hard-coded aliases occurs in the case-folded text. -/
def aliasOccurs (text districtName : String) : Bool :=
  strIncludes (jsToUpper text) (jsToUpper districtName)
    || strIncludes (jsToUpper text) "DELAWARE CITY SCHOOLS"
    || strIncludes (jsToUpper text) "DELAWARE CITY SCHOOL DISTRICT"

/-- A closure keyword (CLOSED, CLOSURE) occurs in the case-folded text. -/
def closureKeywordOccurs (text : String) : Bool :=
  strIncludes (jsToUpper text) "CLOSED" || strIncludes (jsToUpper text) "CLOSURE"

/-- A delay keyword (DELAY, DELAYED, TWO-HOUR, 2-HOUR) occurs in the
case-folded text. -/
def delayKeywordOccurs (text : String) : Bool :=
  strIncludes (jsToUpper text) "DELAY" || strIncludes (jsToUpper text) "DELAYED"
    || strIncludes (jsToUpper text) "TWO-HOUR" || strIncludes (jsToUpper text) "2-HOUR"

/-- Windowed extractor of src/unnamed/part_000 lines 33-48 (also the WOSU
Priority 3 scraper of src/server.js lines 466-476): if the district name
occurs in the case-folded text, inspect only the 50-character substring
starting at its first occurrence; within that window the keyword checks are
`CLOSED`, then `DELAY` or `2-HOUR`. -/
def windowedClassify (closingText districtName : String) : Verdict :=
  let normalizedText := jsToUpper closingText
  let normalizedDistrict := jsToUpper districtName
  match indexOfSub normalizedText normalizedDistrict with
  | some districtIndex =>
    let context := substringRange normalizedText districtIndex (districtIndex + 50)
    if strIncludes context "CLOSED" then Verdict.CLOSED
    else if strIncludes context "DELAY" || strIncludes context "2-HOUR" then Verdict.DELAYED
    else Verdict.OPEN
  | none => Verdict.OPEN

/-- Result of one source in a parallel resolution cycle: name, verdict, and
the error detail attached when the scrape threw (src/unnamed/part_001 lines
219-228). -/
structure SourceResult where
  name : String
  status : Verdict
  error : Option String
deriving DecidableEq

/-- Canonical decision of the majority-vote strategy: status plus source
tag. -/
structure Decision where
  status : String
  source : String
deriving DecidableEq

/-- Majority-vote decision logic of src/unnamed/part_001 lines 161-213
(`decideStatus`): keep non-error results; if none, UNKNOWN; else CLOSED if
its count beats OPEN and is at least DELAYED's, else DELAYED if its count
beats both OPEN and CLOSED, else OPEN if any OPEN vote, else UNKNOWN. -/
def decideStatus (results : List SourceResult) : Decision :=
  let nonError := results.filter (fun r => isDecisive r.status)
  if nonError.length = 0 then
    { status := "UNKNOWN", source := "No successful sources" }
  else
    let openList := nonError.filter (fun r => r.status == Verdict.OPEN)
    let closedList := nonError.filter (fun r => r.status == Verdict.CLOSED)
    let delayedList := nonError.filter (fun r => r.status == Verdict.DELAYED)
    let openCount := openList.length
    let closedCount := closedList.length
    let delayedCount := delayedList.length
    if closedCount > openCount ∧ closedCount ≥ delayedCount ∧ closedCount > 0 then
      { status := "CLOSED"
        source := (match closedList with
          | r :: _ => r.name
          | [] => "") ++ " (majority of " ++ toString closedCount ++ " sources)" }
    else if delayedCount > openCount ∧ delayedCount > closedCount ∧ delayedCount > 0 then
      { status := "DELAYED"
        source := (match delayedList with
          | r :: _ => r.name
          | [] => "") ++ " (majority of " ++ toString delayedCount ++ " sources)" }
    else if openCount > 0 then
      { status := "OPEN", source := "Consensus / plurality of " ++ toString openCount ++ " sources" }
    else
      { status := "UNKNOWN", source := "Conflicting results" }

/-- Outcome of one resolution cycle as returned to the HTTP layer: status
string, source tag, optional error message, optional per-source summary. -/
structure Resolution where
  status : String
  source : Option String
  error : Option String
  results_summary : Option (List SourceResult)
deriving DecidableEq

/-- Majority-vote resolution cycle of src/unnamed/part_001 lines 216-239
(`getSchoolStatus`), taking the settled per-source results as input (the
network fetches are the opaque collaborators of the spec): decide, and
always attach the full per-source summary. -/
def getSchoolStatusMajority (results : List SourceResult) : Resolution :=
  let decision := decideStatus results
  { status := decision.status
    source := some decision.source
    error := none
    results_summary := some results }

/-- Severity-override resolution cycle of src/unnamed/part_000 lines
249-305 (`getSchoolStatus`, parallel "Safety First" system; the same
decision logic as src/server.js lines 383-418): any CLOSED wins, else any
DELAYED, else OPEN if at least one OPEN, else UNKNOWN. -/
def getSchoolStatusParallel (results : List SourceResult) : Resolution :=
  match results.find? (fun r => r.status == Verdict.CLOSED) with
  | some closedSource =>
    { status := "CLOSED", source := some closedSource.name, error := none
      results_summary := some results }
  | none =>
    match results.find? (fun r => r.status == Verdict.DELAYED) with
    | some delayedSource =>
      { status := "DELAYED", source := some delayedSource.name, error := none
        results_summary := some results }
    | none =>
      let successCount := (results.filter (fun r => r.status == Verdict.OPEN)).length
      if successCount > 0 then
        { status := "OPEN", source := some ("Consensus of " ++ toString successCount ++ " sources")
          error := none, results_summary := some results }
      else
        { status := "UNKNOWN", source := none, error := some "All sources failed"
          results_summary := some results }

/-- Outcome of one scraper in a sequential failover system: either the
verdict it returned, or the message of the exception it threw. -/
def ScrapeOutcome := Except String Verdict

/-- Result shape of the 9-source sequential variant (src/server.js lines
123-153): status, source tag, and the `debug_errors` array present only on
the all-failed path. -/
structure Seq9Result where
  status : String
  source : String
  debug_errors : Option (List String)
deriving DecidableEq

/-- Loop body of src/server.js lines 129-152: walk the scrapers, return the
first decisive status, collect `name: message` for each scraper that threw;
if the loop ends, default to OPEN with the collected errors attached. -/
def seq9Go : List (String × ScrapeOutcome) → List String → Seq9Result
  | [], errs =>
    { status := "OPEN", source := "All Sources Failed - Defaulting Open"
      debug_errors := some errs }
  | (name, out) :: rest, errs =>
    match out with
    | Except.ok v =>
      if isDecisive v then
        { status := verdictStr v, source := name, debug_errors := none }
      else
        seq9Go rest errs
    | Except.error e => seq9Go rest (errs ++ [name ++ ": " ++ e])

/-- The 9-source sequential failover `getSchoolStatus` of src/server.js
lines 123-153, taking each scraper's settled outcome as input. -/
def getSchoolStatusSeq9 (scrapers : List (String × ScrapeOutcome)) : Seq9Result :=
  seq9Go scrapers []

/-- Result shape of the 3-source sequential variant (src/server.js lines
225-264): status, source tag when one succeeded, single error message when
all failed. -/
structure Seq3Result where
  status : String
  source : Option String
  error : Option String
deriving DecidableEq

/-- Loop body of src/server.js lines 230-263: walk the scrapers, keep the
first decisive status, remember only the first thrown error; if no scraper
was decisive and some error occurred, report that first error alone. -/
def seq3Go : List (String × ScrapeOutcome) → Option String → Seq3Result
  | [], firstError =>
    match firstError with
    | some e =>
      { status := "NO REPORT / UNKNOWN", source := none
        error := some ("All sources failed. First failure: " ++ e) }
    | none => { status := "NO REPORT / UNKNOWN", source := some "None", error := none }
  | (name, out) :: rest, firstError =>
    match out with
    | Except.ok v =>
      if isDecisive v then
        { status := verdictStr v, source := some name, error := none }
      else
        seq3Go rest firstError
    | Except.error e =>
      seq3Go rest (match firstError with
        | none => some e
        | some e0 => some e0)

/-- The 3-source sequential failover `getSchoolStatus` of src/server.js
lines 225-264, taking each scraper's settled outcome as input. -/
def getSchoolStatusSeq3 (scrapers : List (String × ScrapeOutcome)) : Seq3Result :=
  seq3Go scrapers none

/-- Number of error entries exposed by a Seq3Result: its single `error`
field viewed as a list. -/
def seq3ErrorList (r : Seq3Result) : List String :=
  r.error.toList

/-- Number of error entries exposed by a Seq9Result. -/
def seq9ErrorList (r : Seq9Result) : List String :=
  (r.debug_errors).getD []

/-- Fetched document as seen through the opaque cheerio selectors used by
the structured-query scrapers: the text of the alert-banner region
(`$('.alert, .notification, .banner, .announcement').text()`) and the text
of the whole body (`$('body').text()`).  An absent region yields the empty
string, as cheerio's `.text()` does. -/
structure Document where
  bannerText : String
  bodyText : String

/-- Keyword chain of the part_001 DCS Homepage scraper, applied to an
already case-folded text (src/unnamed/part_001 lines 58-68). -/
def keywordScanDCS (text : String) : Verdict :=
  if strIncludes text "CLOSED" || strIncludes text "CLOSURE" then Verdict.CLOSED
  else if strIncludes text "DELAY" || strIncludes text "DELAYED"
      || strIncludes text "TWO-HOUR" || strIncludes text "2-HOUR" then Verdict.DELAYED
  else Verdict.OPEN

/-- Structured-query scraper of src/unnamed/part_001 lines 49-69 (DCS
Homepage): case-fold the banner region and the body; JS
`bannerText || bodyText` falls back to the body when the banner region is
absent (empty string is falsy); then run the keyword chain. -/
def scrapeDCSHomepage (doc : Document) : Verdict :=
  let bannerText := jsToUpper doc.bannerText
  let bodyText := jsToUpper doc.bodyText
  let text := if bannerText = "" then bodyText else bannerText
  keywordScanDCS text

/-- Structured-query scraper of src/server.js lines 31-40 (Official
District Homepage, Priority 1): inspect only the banner region; keywords
CLOSED/CLOSURE then DELAY/2-HOUR; no fallback to the body. -/
def scrapeHomepageBannerOnly (doc : Document) : Verdict :=
  let bannerText := jsToUpper doc.bannerText
  if strIncludes bannerText "CLOSED" || strIncludes bannerText "CLOSURE" then Verdict.CLOSED
  else if strIncludes bannerText "DELAY" || strIncludes bannerText "2-HOUR" then Verdict.DELAYED
  else Verdict.OPEN

/-- Cache TTL of src/unnamed/part_000 line 86 and src/unnamed/part_001
line 13: 60 seconds in milliseconds. -/
def CACHE_TTL_MS : Nat := 60000

/-- Payload stored in the single cache slot: the resolved data together
with the ISO timestamp taken at resolution time, modelled as a number. -/
structure StatusPayload where
  status : String
  timestamp : Nat
  source : Option String
deriving DecidableEq

/-- Body sent to one HTTP caller: the payload plus the `cached` flag the
handler spreads in. -/
structure StatusResponse where
  body : StatusPayload
  cached : Bool
deriving DecidableEq

/-- The two module-level cache variables `lastResult` and `lastResultTime`
of src/unnamed/part_001 lines 14-15 (`lastResult = null`, time 0 at
start). -/
structure CacheState where
  lastResult : Option StatusPayload
  lastResultTime : Nat
deriving DecidableEq

/-- One execution of the /status handler of src/unnamed/part_001 lines
245-269 (identically src/unnamed/part_000 lines 311-335): `now` is the
clock at request time and `fresh` the payload the resolution cycle would
produce on a miss.  A fresh slot is served with `cached: true`; otherwise
the cycle runs, the slot is overwritten, and `cached: false` is sent. -/
def statusHandler (st : CacheState) (now : Nat) (fresh : StatusPayload) :
    StatusResponse × CacheState :=
  match st.lastResult with
  | some r =>
    if now - st.lastResultTime < CACHE_TTL_MS then
      ({ body := r, cached := true }, st)
    else
      ({ body := fresh, cached := false }, { lastResult := some fresh, lastResultTime := now })
  | none =>
    ({ body := fresh, cached := false }, { lastResult := some fresh, lastResultTime := now })

/-- State of the event-loop model of the /status handler under concurrent
requests: the cache variables, the number of resolution cycles started
(calls of `getSchoolStatus`), the requests suspended at
`await getSchoolStatus()`, and the responses already sent. -/
structure ConcState where
  lastResult : Option StatusPayload
  lastResultTime : Nat
  cycles : Nat
  pending : List (Nat × StatusPayload)
  responses : List (Nat × StatusResponse)
deriving DecidableEq

/-- An event of the event-loop model: `check i` is the synchronous prefix
of request i's handler up to `await getSchoolStatus()` (the cache test);
`settle i` is its continuation once the awaited cycle completes (write the
slot, respond).  Node runs each of these atomically; interleavings happen
only at the await point. -/
inductive ConcEv where
  | check (i : Nat)
  | settle (i : Nat)

/-- One step of the event-loop model.  `arrival i` is `Date.now()` as read
by request i; `freshOf i` is the payload the resolution cycle started by
request i produces. -/
def concStep (arrival : Nat → Nat) (freshOf : Nat → StatusPayload)
    (s : ConcState) : ConcEv → ConcState
  | ConcEv.check i =>
    let now := arrival i
    match s.lastResult with
    | some r =>
      if now - s.lastResultTime < CACHE_TTL_MS then
        { s with responses := s.responses ++ [(i, { body := r, cached := true })] }
      else
        { s with cycles := s.cycles + 1, pending := s.pending ++ [(i, freshOf i)] }
    | none =>
      { s with cycles := s.cycles + 1, pending := s.pending ++ [(i, freshOf i)] }
  | ConcEv.settle i =>
    match s.pending.find? (fun x => x.1 == i) with
    | some pr =>
      { lastResult := some pr.2
        lastResultTime := arrival i
        cycles := s.cycles
        pending := s.pending.filter (fun x => x.1 != i)
        responses := s.responses ++ [(i, { body := pr.2, cached := false })] }
    | none => s

/-- Run the event-loop model over a schedule of events. -/
def concRun (arrival : Nat → Nat) (freshOf : Nat → StatusPayload)
    (s : ConcState) (evs : List ConcEv) : ConcState :=
  evs.foldl (concStep arrival freshOf) s

/-- The state at process start: empty slot, time 0, no cycles yet. -/
def concInit : ConcState :=
  { lastResult := none, lastResultTime := 0, cycles := 0, pending := [], responses := [] }

/-- OPEN votes among the non-error results, as counted by `decideStatus`. -/
def openVotes (rs : List SourceResult) : Nat :=
  ((rs.filter (fun r => isDecisive r.status)).filter (fun r => r.status == Verdict.OPEN)).length

/-- CLOSED votes among the non-error results, as counted by
`decideStatus`. -/
def closedVotes (rs : List SourceResult) : Nat :=
  ((rs.filter (fun r => isDecisive r.status)).filter (fun r => r.status == Verdict.CLOSED)).length

/-- DELAYED votes among the non-error results, as counted by
`decideStatus`. -/
def delayedVotes (rs : List SourceResult) : Nat :=
  ((rs.filter (fun r => isDecisive r.status)).filter (fun r => r.status == Verdict.DELAYED)).length

/-- The canonical status of `decideStatus` as a function of the three vote
counts alone. -/
def statusOfCounts (openCount closedCount delayedCount : Nat) : String :=
  if openCount + closedCount + delayedCount = 0 then "UNKNOWN"
  else if closedCount > openCount ∧ closedCount ≥ delayedCount ∧ closedCount > 0 then "CLOSED"
  else if delayedCount > openCount ∧ delayedCount > closedCount ∧ delayedCount > 0 then "DELAYED"
  else if openCount > 0 then "OPEN"
  else "UNKNOWN"

theorem votes_filter_eq (rs : List SourceResult) (v : Verdict)
    (hv : isDecisive v = true) :
    (rs.filter (fun r => isDecisive r.status)).filter (fun r => r.status == v)
      = rs.filter (fun r => r.status == v) := by
  rw [List.filter_filter]
  refine List.filter_congr ?_
  intro r _
  by_cases h : r.status = v
  · simp [h, hv]
  · simp [h]

theorem filter_length_kinds (rs : List SourceResult) :
    (rs.filter (fun r => isDecisive r.status)).length =
      (rs.filter (fun r => r.status == Verdict.OPEN)).length
      + (rs.filter (fun r => r.status == Verdict.CLOSED)).length
      + (rs.filter (fun r => r.status == Verdict.DELAYED)).length := by
  induction rs with
  | nil => simp
  | cons r rest ih =>
    cases h : r.status <;>
      simp [List.filter_cons, h, isDecisive] at ih ⊢ <;> omega

theorem nonError_length (rs : List SourceResult) :
    (rs.filter (fun r => isDecisive r.status)).length =
      openVotes rs + closedVotes rs + delayedVotes rs := by
  rw [openVotes, closedVotes, delayedVotes,
    votes_filter_eq rs Verdict.OPEN (by decide),
    votes_filter_eq rs Verdict.CLOSED (by decide),
    votes_filter_eq rs Verdict.DELAYED (by decide)]
  exact filter_length_kinds rs

theorem decideStatus_status_eq (rs : List SourceResult) :
    (decideStatus rs).status =
      statusOfCounts (openVotes rs) (closedVotes rs) (delayedVotes rs) := by
  have hL := nonError_length rs
  simp only [decideStatus, statusOfCounts, openVotes, closedVotes, delayedVotes] at hL ⊢
  split_ifs <;> first | rfl | omega

/-- C1: for every verdict sequence, the severity-override strategy of the
parallel systems returns CLOSED if at least one source reported CLOSED;
otherwise DELAYED if at least one reported DELAYED; otherwise OPEN if at
least one reported OPEN; otherwise (all sources erred) UNKNOWN. -/
theorem severity_override_characterization (rs : List SourceResult) :
    ((∃ r ∈ rs, r.status = Verdict.CLOSED) →
      (getSchoolStatusParallel rs).status = "CLOSED")
  ∧ ((∀ r ∈ rs, r.status ≠ Verdict.CLOSED) → (∃ r ∈ rs, r.status = Verdict.DELAYED) →
      (getSchoolStatusParallel rs).status = "DELAYED")
  ∧ ((∀ r ∈ rs, r.status ≠ Verdict.CLOSED ∧ r.status ≠ Verdict.DELAYED) →
      (∃ r ∈ rs, r.status = Verdict.OPEN) →
      (getSchoolStatusParallel rs).status = "OPEN")
  ∧ ((∀ r ∈ rs, r.status = Verdict.ERROR) →
      (getSchoolStatusParallel rs).status = "UNKNOWN") := by
  refine ⟨?_, ?_, ?_, ?_⟩
  · intro h
    have hs : (rs.find? (fun r => r.status == Verdict.CLOSED)).isSome := by
      rw [List.find?_isSome]
      obtain ⟨r, hr, he⟩ := h
      exact ⟨r, hr, by simp [he]⟩
    obtain ⟨c, hc⟩ := Option.isSome_iff_exists.mp hs
    simp [getSchoolStatusParallel, hc]
  · intro hnc h
    have hcn : rs.find? (fun r => r.status == Verdict.CLOSED) = none := by
      rw [List.find?_eq_none]
      intro r hr
      simp [hnc r hr]
    have hs : (rs.find? (fun r => r.status == Verdict.DELAYED)).isSome := by
      rw [List.find?_isSome]
      obtain ⟨r, hr, he⟩ := h
      exact ⟨r, hr, by simp [he]⟩
    obtain ⟨d, hd⟩ := Option.isSome_iff_exists.mp hs
    simp [getSchoolStatusParallel, hcn, hd]
  · intro hnd h
    have hcn : rs.find? (fun r => r.status == Verdict.CLOSED) = none := by
      rw [List.find?_eq_none]
      intro r hr
      simp [(hnd r hr).1]
    have hdn : rs.find? (fun r => r.status == Verdict.DELAYED) = none := by
      rw [List.find?_eq_none]
      intro r hr
      simp [(hnd r hr).2]
    obtain ⟨r, hr, he⟩ := h
    have hmem : r ∈ rs.filter (fun r => r.status == Verdict.OPEN) :=
      List.mem_filter.mpr ⟨hr, by simp [he]⟩
    have hpos : 0 < (rs.filter (fun r => r.status == Verdict.OPEN)).length :=
      List.length_pos.mpr (List.ne_nil_of_mem hmem)
    simp [getSchoolStatusParallel, hcn, hdn, hpos]
  · intro h
    have hcn : rs.find? (fun r => r.status == Verdict.CLOSED) = none := by
      rw [List.find?_eq_none]
      intro r hr
      simp [h r hr]
    have hdn : rs.find? (fun r => r.status == Verdict.DELAYED) = none := by
      rw [List.find?_eq_none]
      intro r hr
      simp [h r hr]
    have hfo : rs.filter (fun r => r.status == Verdict.OPEN) = [] := by
      rw [List.filter_eq_nil_iff]
      intro r hr
      simp [h r hr]
    simp [getSchoolStatusParallel, hcn, hdn, hfo]

/-- C1 witness: a sequence with one ERROR and one CLOSED verdict resolves
to CLOSED under severity-override. -/
theorem severity_override_characterization_witness :
    (getSchoolStatusParallel
      [⟨"DCS Homepage", Verdict.ERROR, some "timeout"⟩,
       ⟨"WBNS 10TV", Verdict.CLOSED, none⟩]).status = "CLOSED" :=
  (severity_override_characterization
    [⟨"DCS Homepage", Verdict.ERROR, some "timeout"⟩,
     ⟨"WBNS 10TV", Verdict.CLOSED, none⟩]).1
    ⟨⟨"WBNS 10TV", Verdict.CLOSED, none⟩, by simp, rfl⟩

/-- C2: for every verdict sequence, the majority-vote strategy, counting
only non-ERROR verdicts, returns CLOSED when the CLOSED count exceeds the
OPEN count and is at least the DELAYED count; else DELAYED when the
DELAYED count exceeds both the OPEN and the CLOSED counts; else OPEN when
at least one OPEN vote exists; else UNKNOWN. -/
theorem majority_vote_characterization (rs : List SourceResult) :
    (closedVotes rs > openVotes rs → closedVotes rs ≥ delayedVotes rs →
      (decideStatus rs).status = "CLOSED")
  ∧ (¬(closedVotes rs > openVotes rs ∧ closedVotes rs ≥ delayedVotes rs) →
      delayedVotes rs > openVotes rs → delayedVotes rs > closedVotes rs →
      (decideStatus rs).status = "DELAYED")
  ∧ (¬(closedVotes rs > openVotes rs ∧ closedVotes rs ≥ delayedVotes rs) →
      ¬(delayedVotes rs > openVotes rs ∧ delayedVotes rs > closedVotes rs) →
      openVotes rs > 0 →
      (decideStatus rs).status = "OPEN")
  ∧ (¬(closedVotes rs > openVotes rs ∧ closedVotes rs ≥ delayedVotes rs) →
      ¬(delayedVotes rs > openVotes rs ∧ delayedVotes rs > closedVotes rs) →
      openVotes rs = 0 →
      (decideStatus rs).status = "UNKNOWN") := by
  rw [decideStatus_status_eq]
  unfold statusOfCounts
  refine ⟨?_, ?_, ?_, ?_⟩ <;> intro h1 h2 <;> try intro h3
  · split_ifs <;> first | rfl | omega
  · split_ifs <;> first | rfl | omega
  · split_ifs <;> first | rfl | omega
  · split_ifs <;> first | rfl | omega

/-- C2 witness: two CLOSED votes against one OPEN vote and one ERROR give
CLOSED. -/
theorem majority_vote_characterization_witness :
    (decideStatus
      [⟨"A", Verdict.CLOSED, none⟩, ⟨"B", Verdict.OPEN, none⟩,
       ⟨"C", Verdict.CLOSED, none⟩, ⟨"D", Verdict.ERROR, some "dns"⟩]).status
      = "CLOSED" :=
  (majority_vote_characterization
    [⟨"A", Verdict.CLOSED, none⟩, ⟨"B", Verdict.OPEN, none⟩,
     ⟨"C", Verdict.CLOSED, none⟩, ⟨"D", Verdict.ERROR, some "dns"⟩]).1
    (by decide) (by decide)

/-- C8: permuting the verdict sequence never changes the canonical status
of the majority-vote strategy. -/
theorem majority_vote_perm_invariant (rs₁ rs₂ : List SourceResult)
    (h : List.Perm rs₁ rs₂) :
    (decideStatus rs₁).status = (decideStatus rs₂).status := by
  rw [decideStatus_status_eq, decideStatus_status_eq]
  have ho : openVotes rs₁ = openVotes rs₂ :=
    List.Perm.length_eq (List.Perm.filter _ (List.Perm.filter _ h))
  have hc : closedVotes rs₁ = closedVotes rs₂ :=
    List.Perm.length_eq (List.Perm.filter _ (List.Perm.filter _ h))
  have hd : delayedVotes rs₁ = delayedVotes rs₂ :=
    List.Perm.length_eq (List.Perm.filter _ (List.Perm.filter _ h))
  rw [ho, hc, hd]

/-- C8 witness: reversing a mixed three-source sequence leaves the
majority-vote status unchanged. -/
theorem majority_vote_perm_invariant_witness :
    (decideStatus
      [⟨"A", Verdict.DELAYED, none⟩, ⟨"B", Verdict.OPEN, none⟩,
       ⟨"C", Verdict.DELAYED, none⟩]).status
    = (decideStatus
      [⟨"C", Verdict.DELAYED, none⟩, ⟨"B", Verdict.OPEN, none⟩,
       ⟨"A", Verdict.DELAYED, none⟩]).status :=
  majority_vote_perm_invariant
    [⟨"A", Verdict.DELAYED, none⟩, ⟨"B", Verdict.OPEN, none⟩,
     ⟨"C", Verdict.DELAYED, none⟩]
    [⟨"C", Verdict.DELAYED, none⟩, ⟨"B", Verdict.OPEN, none⟩,
     ⟨"A", Verdict.DELAYED, none⟩]
    (by decide)

/-- C3: for every document text and district name, `checkTextForStatus`
returns OPEN when no alias occurs in the case-folded text; when an alias
occurs it returns CLOSED if a closure keyword (CLOSED, CLOSURE) occurs,
else DELAYED if a delay keyword (DELAY, DELAYED, TWO-HOUR, 2-HOUR) occurs,
else OPEN — closure keywords always outrank delay keywords. -/
theorem checkText_characterization (text districtName : String) :
    (aliasOccurs text districtName = false →
      checkTextForStatus text districtName = Verdict.OPEN)
  ∧ (aliasOccurs text districtName = true → closureKeywordOccurs text = true →
      checkTextForStatus text districtName = Verdict.CLOSED)
  ∧ (aliasOccurs text districtName = true → closureKeywordOccurs text = false →
      delayKeywordOccurs text = true →
      checkTextForStatus text districtName = Verdict.DELAYED)
  ∧ (aliasOccurs text districtName = true → closureKeywordOccurs text = false →
      delayKeywordOccurs text = false →
      checkTextForStatus text districtName = Verdict.OPEN) := by
  simp only [aliasOccurs, closureKeywordOccurs, delayKeywordOccurs, checkTextForStatus]
  refine ⟨?_, ?_, ?_, ?_⟩ <;> intro h1 <;> try intro h2
  · simp [h1]
  · simp [h1, h2]
  · intro h3
    simp only [Bool.or_eq_false_iff] at h2
    simp [h1, h2.1, h2.2, h3]
  · intro h3
    simp only [Bool.or_eq_false_iff] at h2 h3
    simp [h1, h2.1, h2.2, h3.1.1.1, h3.1.1.2, h3.1.2, h3.2]

/-- C3 witness: a report naming the district with a delay keyword and no
closure keyword classifies as DELAYED. -/
theorem checkText_characterization_witness :
    checkTextForStatus "Delaware City Schools on a two-hour delay" "Delaware City Schools"
      = Verdict.DELAYED :=
  (checkText_characterization
    "Delaware City Schools on a two-hour delay" "Delaware City Schools").2.2.1
    (by decide) (by decide) (by decide)

/-- C10: in the whole-document strategy, an alias occurrence anywhere plus
a closure keyword anywhere in the same document — however far apart —
yields CLOSED; no proximity between alias and keyword is required. -/
theorem whole_document_no_window (text districtName : String)
    (halias : aliasOccurs text districtName = true)
    (hclosure : closureKeywordOccurs text = true) :
    checkTextForStatus text districtName = Verdict.CLOSED := by
  simp only [aliasOccurs, closureKeywordOccurs] at halias hclosure
  simp [checkTextForStatus, halias, hclosure]

/-- C10 witness: the closure keyword belongs to a different district's
entry at the start of the page, the alias only occurs at the end, and the
classification is still CLOSED. -/
theorem whole_document_no_window_witness :
    checkTextForStatus
      "Big Walnut Local Schools: CLOSED. Buckeye Valley: on time. Olentangy: on time. Westerville: on time. Worthington: on time. Delaware City Schools: no report."
      "Delaware City Schools" = Verdict.CLOSED :=
  whole_document_no_window
    "Big Walnut Local Schools: CLOSED. Buckeye Valley: on time. Olentangy: on time. Westerville: on time. Worthington: on time. Delaware City Schools: no report."
    "Delaware City Schools" (by decide) (by decide)

/-- C4 counterexample: the spec's closure keyword family includes CLOSURE,
but the windowed strategy checks only CLOSED inside the window: with the
alias at index 0 and CLOSURE inside the 50-character window, the result is
OPEN, not CLOSED. -/
theorem windowed_closure_keyword_ctrex :
    indexOfSub (jsToUpper "DELAWARE CITY CLOSURE ANNOUNCED") (jsToUpper "Delaware City")
      = some 0
  ∧ strIncludes (substringRange (jsToUpper "DELAWARE CITY CLOSURE ANNOUNCED") 0 (0 + 50))
      "CLOSURE" = true
  ∧ closureKeywordOccurs "DELAWARE CITY CLOSURE ANNOUNCED" = true
  ∧ windowedClassify "DELAWARE CITY CLOSURE ANNOUNCED" "Delaware City" = Verdict.OPEN := by
  decide

/-- C4 amended: when the district name occurs, the windowed strategy
classifies using only the 50-character window starting at its first
occurrence, with the window's own keyword set: CLOSED yields CLOSED; else
DELAY or 2-HOUR yields DELAYED; else the result is OPEN even when keywords
occur elsewhere in the document (CLOSURE and TWO-HOUR are not recognized
by this strategy). -/
theorem windowed_classify_characterization (text districtName : String) (i : Nat)
    (hidx : indexOfSub (jsToUpper text) (jsToUpper districtName) = some i) :
    (strIncludes (substringRange (jsToUpper text) i (i + 50)) "CLOSED" = true →
      windowedClassify text districtName = Verdict.CLOSED)
  ∧ (strIncludes (substringRange (jsToUpper text) i (i + 50)) "CLOSED" = false →
      (strIncludes (substringRange (jsToUpper text) i (i + 50)) "DELAY" = true
        ∨ strIncludes (substringRange (jsToUpper text) i (i + 50)) "2-HOUR" = true) →
      windowedClassify text districtName = Verdict.DELAYED)
  ∧ (strIncludes (substringRange (jsToUpper text) i (i + 50)) "CLOSED" = false →
      strIncludes (substringRange (jsToUpper text) i (i + 50)) "DELAY" = false →
      strIncludes (substringRange (jsToUpper text) i (i + 50)) "2-HOUR" = false →
      windowedClassify text districtName = Verdict.OPEN) := by
  refine ⟨?_, ?_, ?_⟩
  · intro h1
    simp [windowedClassify, hidx, h1]
  · intro h1 h2
    rcases h2 with h2 | h2 <;> simp [windowedClassify, hidx, h1, h2]
  · intro h1 h2 h3
    simp [windowedClassify, hidx, h1, h2, h3]

/-- C4 witness: the page opens with another district's CLOSED entry, the
alias appears 24 characters later, the window following the alias holds no
keyword, so the windowed strategy reports OPEN although CLOSED occurs in
the document. -/
theorem windowed_classify_characterization_witness :
    windowedClassify "CLOSED: OTHER DISTRICT. DELAWARE CITY IS FINE" "Delaware City"
      = Verdict.OPEN :=
  (windowed_classify_characterization
    "CLOSED: OTHER DISTRICT. DELAWARE CITY IS FINE" "Delaware City" 24
    (by decide)).2.2 (by decide) (by decide) (by decide)

theorem seq9Go_all_error (xs : List (String × ScrapeOutcome)) (errs : List String)
    (h : ∀ x ∈ xs, ∃ e, x.2 = Except.error e) :
    (seq9Go xs errs).status = "OPEN"
    ∧ ∃ l, (seq9Go xs errs).debug_errors = some l ∧ l.length = errs.length + xs.length := by
  induction xs generalizing errs with
  | nil => exact ⟨rfl, errs, rfl, by simp⟩
  | cons x rest ih =>
    obtain ⟨e, he⟩ := h x (by simp)
    obtain ⟨n, o⟩ := x
    simp only at he
    subst he
    have hrest : ∀ y ∈ rest, ∃ e, y.2 = Except.error e := fun y hy => h y (by simp [hy])
    obtain ⟨hst, l, hl, hlen⟩ := ih (errs ++ [n ++ ": " ++ e]) hrest
    exact ⟨hst, l, hl, by simp at hlen ⊢; omega⟩

theorem seq3Go_all_error (xs : List (String × ScrapeOutcome)) (e : String)
    (h : ∀ x ∈ xs, ∃ m, x.2 = Except.error m) :
    seq3Go xs (some e)
      = { status := "NO REPORT / UNKNOWN", source := none
          error := some ("All sources failed. First failure: " ++ e) } := by
  induction xs with
  | nil => rfl
  | cons x rest ih =>
    obtain ⟨m, hm⟩ := h x (by simp)
    obtain ⟨n, o⟩ := x
    simp only at hm
    subst hm
    exact ih fun y hy => h y (by simp [hy])

/-- C5 counterexample: with three sources all failing, the 3-source
sequential strategy returns a single first-failure message, not an error
detail list with one entry per source. -/
theorem seq3_error_detail_ctrex :
    (getSchoolStatusSeq3
      [("A", Except.error "timeout"), ("B", Except.error "refused"),
       ("C", Except.error "dns")]).status = "NO REPORT / UNKNOWN"
  ∧ (seq3ErrorList (getSchoolStatusSeq3
      [("A", Except.error "timeout"), ("B", Except.error "refused"),
       ("C", Except.error "dns")])).length = 1
  ∧ ([("A", Except.error "timeout"), ("B", Except.error "refused"),
      ("C", Except.error "dns")] : List (String × ScrapeOutcome)).length = 3
  ∧ (1 : Nat) ≠ 3 := by
  refine ⟨rfl, rfl, rfl, by omega⟩

/-- C5 amended: on all-ERROR inputs every strategy returns UNKNOWN or its
configured safe default (OPEN for the 9-source sequential variant,
NO REPORT / UNKNOWN for the 3-source variant); the 9-source sequential,
majority-vote and severity-override variants expose one error entry per
source, but the 3-source sequential variant records only the first
failure. -/
theorem all_error_resolution (xs rest : List (String × ScrapeOutcome))
    (rs : List SourceResult) (name0 e0 : String) :
    ((∀ x ∈ xs, ∃ e, x.2 = Except.error e) →
      (getSchoolStatusSeq9 xs).status = "OPEN"
      ∧ (seq9ErrorList (getSchoolStatusSeq9 xs)).length = xs.length)
  ∧ ((∀ x ∈ rest, ∃ e, x.2 = Except.error e) →
      (getSchoolStatusSeq3 ((name0, Except.error e0) :: rest)).status
        = "NO REPORT / UNKNOWN"
      ∧ (getSchoolStatusSeq3 ((name0, Except.error e0) :: rest)).error
        = some ("All sources failed. First failure: " ++ e0))
  ∧ ((∀ r ∈ rs, r.status = Verdict.ERROR) →
      (getSchoolStatusMajority rs).status = "UNKNOWN"
      ∧ (getSchoolStatusMajority rs).results_summary = some rs)
  ∧ ((∀ r ∈ rs, r.status = Verdict.ERROR) →
      (getSchoolStatusParallel rs).status = "UNKNOWN"
      ∧ (getSchoolStatusParallel rs).results_summary = some rs) := by
  refine ⟨?_, ?_, ?_, ?_⟩
  · intro h
    obtain ⟨hst, l, hl, hlen⟩ := seq9Go_all_error xs [] h
    refine ⟨hst, ?_⟩
    simp only [getSchoolStatusSeq9, seq9ErrorList, hl, Option.getD_some]
    simpa using hlen
  · intro h
    have := seq3Go_all_error rest e0 h
    constructor
    · simp only [getSchoolStatusSeq3, seq3Go, this]
    · simp only [getSchoolStatusSeq3, seq3Go, this]
  · intro h
    have hfe : rs.filter (fun r => isDecisive r.status) = [] := by
      rw [List.filter_eq_nil_iff]
      intro r hr
      simp [isDecisive, h r hr]
    constructor
    · simp [getSchoolStatusMajority, decideStatus, hfe]
    · rfl
  · intro h
    have hcn : rs.find? (fun r => r.status == Verdict.CLOSED) = none := by
      rw [List.find?_eq_none]
      intro r hr
      simp [h r hr]
    have hdn : rs.find? (fun r => r.status == Verdict.DELAYED) = none := by
      rw [List.find?_eq_none]
      intro r hr
      simp [h r hr]
    have hfo : rs.filter (fun r => r.status == Verdict.OPEN) = [] := by
      rw [List.filter_eq_nil_iff]
      intro r hr
      simp [h r hr]
    constructor
    · simp [getSchoolStatusParallel, hcn, hdn, hfo]
    · simp [getSchoolStatusParallel, hcn, hdn, hfo]

/-- C5 witness: a concrete all-ERROR cycle over two sources makes the
majority-vote strategy produce UNKNOWN with both sources and their error
details in the summary. -/
theorem all_error_resolution_witness :
    (getSchoolStatusMajority
      [⟨"A", Verdict.ERROR, some "timeout"⟩, ⟨"B", Verdict.ERROR, some "403"⟩]).status
      = "UNKNOWN"
  ∧ (getSchoolStatusMajority
      [⟨"A", Verdict.ERROR, some "timeout"⟩, ⟨"B", Verdict.ERROR, some "403"⟩]).results_summary
      = some [⟨"A", Verdict.ERROR, some "timeout"⟩, ⟨"B", Verdict.ERROR, some "403"⟩] :=
  (all_error_resolution [] []
    [⟨"A", Verdict.ERROR, some "timeout"⟩, ⟨"B", Verdict.ERROR, some "403"⟩]
    "" "").2.2.1 (by decide)

/-- C6 counterexample: in the server.js homepage scraper, with the banner
region absent and CLOSED in the body, whole-document scanning would give
CLOSED, yet the scraper returns OPEN — it never falls back to the body. -/
theorem banner_no_fallback_ctrex :
    keywordScanDCS (jsToUpper "DELAWARE CITY SCHOOLS ARE CLOSED TODAY") = Verdict.CLOSED
  ∧ scrapeHomepageBannerOnly
      { bannerText := "", bodyText := "DELAWARE CITY SCHOOLS ARE CLOSED TODAY" }
      = Verdict.OPEN := by
  decide

/-- C6 amended: extraction never produces ERROR in either structured-query
scraper; the part_001 DCS homepage scraper falls back to scanning the whole
body with the same keyword logic when the banner region is absent, while
the server.js homepage scraper inspects only the banner region and degrades
to OPEN when it is absent, whatever the body says. -/
theorem structured_query_behavior (doc : Document) :
    scrapeDCSHomepage doc ≠ Verdict.ERROR
  ∧ scrapeHomepageBannerOnly doc ≠ Verdict.ERROR
  ∧ (doc.bannerText = "" →
      scrapeDCSHomepage doc = keywordScanDCS (jsToUpper doc.bodyText))
  ∧ (doc.bannerText = "" → scrapeHomepageBannerOnly doc = Verdict.OPEN) := by
  refine ⟨?_, ?_, ?_, ?_⟩
  · simp only [scrapeDCSHomepage, keywordScanDCS]
    split_ifs <;> simp
  · simp only [scrapeHomepageBannerOnly]
    split_ifs <;> simp
  · intro h
    simp [scrapeDCSHomepage, h, jsToUpper]
  · intro h
    simp [scrapeHomepageBannerOnly, h, jsToUpper, strIncludes, occursL, headMatch]

/-- C6 witness: a document with no banner region and a delay notice in the
body is classified DELAYED by the falling-back DCS scraper. -/
theorem structured_query_behavior_witness :
    scrapeDCSHomepage { bannerText := "", bodyText := "Two-hour delay today" }
      = keywordScanDCS (jsToUpper "Two-hour delay today") :=
  (structured_query_behavior
    { bannerText := "", bodyText := "Two-hour delay today" }).2.2.1 rfl

/-- C7: a second read within 60 seconds of the read that filled the slot
returns the stored payload with its original timestamp and cached true,
leaving the slot untouched; a read at or past expiry runs a fresh cycle,
returns the fresh payload with cached false, and repopulates the slot. -/
theorem cache_ttl_behavior (st0 : CacheState) (t0 t1 : Nat)
    (p1 p2 : StatusPayload) (hmiss : st0.lastResult = none) :
    ((statusHandler st0 t0 p1).1 = { body := p1, cached := false })
  ∧ ((statusHandler st0 t0 p1).2 = { lastResult := some p1, lastResultTime := t0 })
  ∧ (t1 - t0 < CACHE_TTL_MS →
      (statusHandler (statusHandler st0 t0 p1).2 t1 p2).1 = { body := p1, cached := true }
      ∧ (statusHandler (statusHandler st0 t0 p1).2 t1 p2).1.body.timestamp = p1.timestamp
      ∧ (statusHandler (statusHandler st0 t0 p1).2 t1 p2).2 = (statusHandler st0 t0 p1).2)
  ∧ (t1 - t0 ≥ CACHE_TTL_MS →
      (statusHandler (statusHandler st0 t0 p1).2 t1 p2).1 = { body := p2, cached := false }
      ∧ (statusHandler (statusHandler st0 t0 p1).2 t1 p2).2
          = { lastResult := some p2, lastResultTime := t1 }) := by
  refine ⟨?_, ?_, ?_, ?_⟩
  · simp [statusHandler, hmiss]
  · simp [statusHandler, hmiss]
  · intro h
    refine ⟨?_, ?_, ?_⟩ <;> simp [statusHandler, hmiss, h]
  · intro h
    have h2 : ¬ (t1 - t0 < CACHE_TTL_MS) := by omega
    exact ⟨by simp [statusHandler, hmiss, h2], by simp [statusHandler, hmiss, h2]⟩

/-- C7 witness: a read at millisecond 100 fills the empty slot, and a read
at millisecond 200 is served from cache with the stored payload. -/
theorem cache_ttl_behavior_witness :
    (statusHandler
      (statusHandler { lastResult := none, lastResultTime := 0 } 100
        { status := "OPEN", timestamp := 100, source := none }).2
      200 { status := "CLOSED", timestamp := 200, source := none }).1
    = { body := { status := "OPEN", timestamp := 100, source := none }, cached := true } :=
  ((cache_ttl_behavior { lastResult := none, lastResultTime := 0 } 100 200
    { status := "OPEN", timestamp := 100, source := none }
    { status := "CLOSED", timestamp := 200, source := none } rfl).2.2.1
    (by decide)).1

/-- C9 counterexample: two requests that both pass the cache check before
either resolution completes trigger two resolution cycles, not one, and
the two callers receive different payloads. -/
theorem concurrent_miss_ctrex :
    (concRun (fun _ => 0)
      (fun i => if i = 0 then { status := "OPEN", timestamp := 1, source := none }
        else { status := "CLOSED", timestamp := 2, source := some "B" })
      concInit
      [ConcEv.check 0, ConcEv.check 1, ConcEv.settle 0, ConcEv.settle 1]).cycles = 2
  ∧ ¬ ((concRun (fun _ => 0)
      (fun i => if i = 0 then { status := "OPEN", timestamp := 1, source := none }
        else { status := "CLOSED", timestamp := 2, source := some "B" })
      concInit
      [ConcEv.check 0, ConcEv.check 1, ConcEv.settle 0, ConcEv.settle 1]).cycles = 1)
  ∧ (concRun (fun _ => 0)
      (fun i => if i = 0 then { status := "OPEN", timestamp := 1, source := none }
        else { status := "CLOSED", timestamp := 2, source := some "B" })
      concInit
      [ConcEv.check 0, ConcEv.check 1, ConcEv.settle 0, ConcEv.settle 1]).responses
      = [(0, { body := { status := "OPEN", timestamp := 1, source := none }, cached := false }),
         (1, { body := { status := "CLOSED", timestamp := 2, source := some "B" }, cached := false })]
  ∧ ({ status := "OPEN", timestamp := 1, source := none } : StatusPayload)
      ≠ { status := "CLOSED", timestamp := 2, source := some "B" } := by
  refine ⟨rfl, by decide, rfl, by decide⟩

/-- C9 amended: concurrent misses are not coalesced — whenever both
requests run their cache check before either resolution settles, the
handler starts one resolution cycle per request (two cycles for two
callers) and each caller is answered with its own cycle's payload, so the
callers may receive different ResolutionResults. -/
theorem concurrent_miss_duplicates (freshOf : Nat → StatusPayload) :
    (concRun (fun _ => 0) freshOf concInit
      [ConcEv.check 0, ConcEv.check 1, ConcEv.settle 0, ConcEv.settle 1]).cycles = 2
  ∧ (concRun (fun _ => 0) freshOf concInit
      [ConcEv.check 0, ConcEv.check 1, ConcEv.settle 0, ConcEv.settle 1]).responses
      = [(0, { body := freshOf 0, cached := false }),
         (1, { body := freshOf 1, cached := false })] := by
  exact ⟨rfl, rfl⟩

end DelawareProxy
